import Mathlib

/-!
Verification of the shared-worker upstream-connection broker
(`src/market-worker.js`): a shallow embedding of the worker's module-level
state and event handlers, plus proofs of the spec's testable properties.

The worker is single-threaded and event-driven; each JS event handler is
embedded as a pure function from the module state (and the wall-clock time,
where the handler reads `Date.now()`) to a new state together with its
observable effects (`postMessage` calls, `ws.send` calls, `new WebSocket`
constructions, timers created).

JS `Map`s are embedded as insertion-ordered association lists with the exact
`Map.get` / `Map.set` / `Map.delete` semantics (`set` of an existing key
overwrites in place, keeping the entry's position; `set` of a fresh key
appends).
-/

set_option maxHeartbeats 1000000

namespace MW

/-- A row carried in an upstream delta update (`row.symbol` plus a payload
field standing for the changed pricing/metric fields). -/
structure Row where
  symbol : String
  price : Int
deriving DecidableEq

/-- A subscriber `MessagePort` is identified by the object it is in JS;
here, by a natural number. -/
abbrev Port := Nat

/-- Per-port bookkeeping stored in the `ports` map: `{ id, lastPong }`
(market-worker.js line 157). -/
structure PortInfo where
  id : Nat
  lastPong : Nat
deriving DecidableEq

/-- Messages the worker posts to subscriber ports. -/
inductive Msg where
  | initial (data : List Row)
  | update (data : List Row) (timestamp : Nat)
  | connected
  | disconnected
  | ping
  | frequencyChanged (frequency : Int)
  | batchSizeChanged (min max : Int)
  | other (tag : String)
deriving DecidableEq

/-- Commands the worker sends upstream over the WebSocket. -/
inductive Cmd where
  | setFrequency (frequency : Int)
  | setBatchSize (min max : Int)
deriving DecidableEq

/-- `WebSocket.CONNECTING` readyState constant of the DOM API. -/
def WebSocketCONNECTING : Nat := 0

/-- `WebSocket.OPEN` readyState constant of the DOM API. -/
def WebSocketOPEN : Nat := 1

/-- The worker's view of its WebSocket object: only `readyState` is read. -/
structure WS where
  readyState : Nat
deriving DecidableEq

/-- JS `Map.set`: overwrite in place if the key exists (keeping its
position), else append. -/
def jsMapSet {K A : Type} [DecidableEq K] : List (K × A) → K → A → List (K × A)
  | [], k, v => [(k, v)]
  | e :: rest, k, v => if e.1 = k then (k, v) :: rest else e :: jsMapSet rest k v

/-- JS `Map.get`: first (only) entry with the key, if any. -/
def jsMapGet {K A : Type} [DecidableEq K] : List (K × A) → K → Option A
  | [], _ => none
  | e :: rest, k => if e.1 = k then some e.2 else jsMapGet rest k

/-- JS `Map.delete`: drop the entry with the key. -/
def jsMapDelete {K A : Type} [DecidableEq K] (m : List (K × A)) (k : K) : List (K × A) :=
  m.filter (fun e => e.1 ≠ k)

/-- The worker's module-level mutable state (market-worker.js lines 1-12).
Timer handles are embedded as: `reconnectTimeout` holds the due time of the
pending reconnect (`none` when null), `batchTimer`/`heartbeatInterval` hold
whether the handle variable is non-null. -/
structure State where
  ws : Option WS
  ports : List (Port × PortInfo)
  reconnectTimeout : Option Nat
  lastInitialData : Option Msg
  nextPortId : Nat
  heartbeatInterval : Bool
  pendingUpdates : List (String × Row)
  batchTimer : Bool
deriving DecidableEq

/-- Initial values of the module-level variables. -/
def initState : State :=
  { ws := none, ports := [], reconnectTimeout := none, lastInitialData := none,
    nextPortId := 1, heartbeatInterval := false, pendingUpdates := [], batchTimer := false }

/-- Observable effects of one event handler run: `postMessage` calls in
order, `ws.send` payloads, and the number of `new WebSocket(...)` calls. -/
structure Out where
  posts : List (Port × Msg)
  sends : List Cmd
  connects : Nat
deriving DecidableEq

/-- No observable effect. -/
def noOut : Out := ⟨[], [], 0⟩

/-- `RECONNECT` backoff delay: the literal 2000 ms of line 74. -/
def RECONNECT_DELAY : Nat := 2000

/-- `HEARTBEAT_TIMEOUT` (line 122): 30 seconds. -/
def HEARTBEAT_TIMEOUT : Nat := 30000

/-- The liveness monitor interval (line 149): 10 seconds. -/
def HEARTBEAT_INTERVAL : Nat := 10000

/-- `flushBatch` (lines 14-26): if nothing is pending, return without
emitting; otherwise broadcast one `update` message carrying the pending
values in insertion order, clear the pending map and null the timer
handle. -/
def flushBatch (now : Nat) (s : State) : State × List (Port × Msg) :=
  if s.pendingUpdates = [] then (s, [])
  else
    let batchedData := s.pendingUpdates.map Prod.snd
    ({ s with pendingUpdates := [], batchTimer := false },
     s.ports.map (fun e => (e.1, Msg.update batchedData now)))

/-- `scheduleBatch` (lines 28-31): create a flush timer only when none is
scheduled. The second component counts timers created (0 or 1). -/
def scheduleBatch (s : State) : State × Nat :=
  if s.batchTimer then (s, 0) else ({ s with batchTimer := true }, 1)

/-- `connect()` (lines 33-34): allocate a fresh WebSocket, initially in the
CONNECTING readyState. The handler bodies installed on it are modelled as
the separate events below. -/
def connect (s : State) : State :=
  { s with ws := some ⟨WebSocketCONNECTING⟩ }

/-- The `forEach` body of the update branch of `ws.onmessage` (lines 50-52),
iterated over a whole list of offered rows: `pendingUpdates.set(row.symbol, row)`. -/
def offerRows (rows : List Row) (m : List (String × Row)) : List (String × Row) :=
  rows.foldl (fun m r => jsMapSet m r.symbol r) m

/-- Messages arriving on the upstream WebSocket, as classified by
`ws.onmessage` (lines 41-57). -/
inductive WsIn where
  | initial (data : List Row)
  | update (data : List Row)
  | other (tag : String)
deriving DecidableEq

/-- `ws.onmessage` (lines 41-57): cache and broadcast a snapshot, coalesce a
delta batch into `pendingUpdates` and schedule a flush, broadcast anything
else unmodified. Returns (state, posts, timers created). -/
def wsOnMessage (m : WsIn) (s : State) : State × List (Port × Msg) × Nat :=
  match m with
  | .initial data =>
      ({ s with lastInitialData := some (Msg.initial data) },
       s.ports.map (fun e => (e.1, Msg.initial data)), 0)
  | .update data =>
      let r := scheduleBatch { s with pendingUpdates := offerRows data s.pendingUpdates }
      (r.1, [], r.2)
  | .other tag => (s, s.ports.map (fun e => (e.1, Msg.other tag)), 0)

/-- `ws.onopen` (lines 36-39): the socket reaches the OPEN readyState and a
`connected` message is broadcast. -/
def wsOnOpen (s : State) : State × List (Port × Msg) :=
  ({ s with ws := s.ws.map (fun _ => ⟨WebSocketOPEN⟩) },
   s.ports.map (fun e => (e.1, Msg.connected)))

/-- `ws.onclose` (lines 59-79): broadcast `disconnected`; if a flush timer
is pending, cancel it and flush synchronously; then, only if ports remain,
schedule a reconnect `RECONNECT_DELAY` ms out, else drop the ws reference. -/
def wsOnClose (now : Nat) (s : State) : State × List (Port × Msg) :=
  let posts₀ := s.ports.map (fun e => (e.1, Msg.disconnected))
  let r := if s.batchTimer then flushBatch now s else (s, [])
  if r.1.ports = [] then
    ({ r.1 with ws := none }, posts₀ ++ r.2)
  else
    ({ r.1 with reconnectTimeout := some (now + RECONNECT_DELAY) }, posts₀ ++ r.2)

/-- `broadcast` (lines 86-90). `fails p = true` models `port.postMessage`
throwing for port `p`. The source loop has no try/catch, so the first
failure propagates out of the loop: the result is the successful posts (the
prefix of the registry before the failing port) together with a flag saying
whether an exception escaped. The registry is neither consulted for
liveness nor modified. -/
def broadcast (fails : Port → Bool) (ports : List (Port × PortInfo)) (m : Msg) :
    List (Port × Msg) × Bool :=
  match ports with
  | [] => ([], false)
  | e :: rest =>
      if fails e.1 then ([], true)
      else
        let r := broadcast fails rest m
        ((e.1, m) :: r.1, r.2)

/-- `checkCleanup` (lines 101-118): once the registry is empty, clear the
reconnect timer, clear the heartbeat interval, and close and drop the
WebSocket. Note: `batchTimer` is not touched here. -/
def checkCleanup (s : State) : State :=
  if s.ports = [] then
    { s with reconnectTimeout := none, heartbeatInterval := false, ws := none }
  else s

/-- `removePort` (lines 92-99): delete the port from the registry if
present, then run `checkCleanup`. -/
def removePort (p : Port) (s : State) : State :=
  if (jsMapGet s.ports p).isSome then
    checkCleanup { s with ports := jsMapDelete s.ports p }
  else s

/-- `checkHeartbeats` (lines 120-130): evict every port whose `lastPong` is
more than `HEARTBEAT_TIMEOUT` ms before `now`. JS computes
`now - lastPong > 30000` on integers; with `Nat` truncated subtraction the
comparison agrees (a `lastPong` in the future gives `0 > 30000`, false in
both worlds). -/
def checkHeartbeats (now : Nat) (s : State) : State :=
  s.ports.foldl
    (fun st e => if now - e.2.lastPong > HEARTBEAT_TIMEOUT then removePort e.1 st else st) s

/-- `sendHeartbeats` (lines 132-141): ping every port; here a throwing
`postMessage` is caught and the failed port removed. -/
def sendHeartbeats (fails : Port → Bool) (s : State) : State × List (Port × Msg) :=
  s.ports.foldl
    (fun acc e =>
      if fails e.1 then (removePort e.1 acc.1, acc.2)
      else (acc.1, acc.2 ++ [(e.1, Msg.ping)])) (s, [])

/-- `startHeartbeatMonitoring` (lines 143-150): idempotently start the
10-second monitor interval. -/
def startHeartbeatMonitoring (s : State) : State :=
  if s.heartbeatInterval then s else { s with heartbeatInterval := true }

/-- `ws && ws.readyState === WebSocket.OPEN` (lines 174, 186, 213). -/
def wsIsOpen (s : State) : Bool :=
  match s.ws with
  | some w => w.readyState = WebSocketOPEN
  | none => false

/-- Messages a subscriber port can send, as dispatched by the
`port.onmessage` handler (lines 161-196). -/
inductive PortEvent where
  | pong
  | disconnect
  | setFrequency (frequency : Int)
  | setBatchSize (min max : Int)
deriving DecidableEq

/-- The `port.onmessage` handler installed in `onconnect` (lines 161-196):
bail out if the port is no longer registered; record liveness on `pong`;
remove the port on `disconnect`; on `setFrequency` / `setBatchSize` forward
the command upstream when the socket is OPEN and notify every other port. -/
def portOnMessage (now : Nat) (p : Port) (ev : PortEvent) (s : State) : State × Out :=
  match jsMapGet s.ports p with
  | none => (s, noOut)
  | some info =>
      match ev with
      | .pong =>
          ({ s with ports := jsMapSet s.ports p { info with lastPong := now } }, noOut)
      | .disconnect => (removePort p s, noOut)
      | .setFrequency f =>
          (s, ⟨(s.ports.filter (fun e => e.1 ≠ p)).map (fun e => (e.1, Msg.frequencyChanged f)),
               if wsIsOpen s then [Cmd.setFrequency f] else [], 0⟩)
      | .setBatchSize mn mx =>
          (s, ⟨(s.ports.filter (fun e => e.1 ≠ p)).map (fun e => (e.1, Msg.batchSizeChanged mn mx)),
               if wsIsOpen s then [Cmd.setBatchSize mn mx] else [], 0⟩)

/-- `self.onconnect` (lines 153-216): register the port with a fresh id and
liveness = now; if no WebSocket exists, connect and start the monitor;
otherwise post the cached snapshot (if any) and a synthetic status message
to the new port. -/
def onconnect (now : Nat) (p : Port) (s : State) : State × Out :=
  let s₁ := { s with
    nextPortId := s.nextPortId + 1,
    ports := jsMapSet s.ports p ⟨s.nextPortId, now⟩ }
  match s₁.ws with
  | none => (startHeartbeatMonitoring (connect s₁), ⟨[], [], 1⟩)
  | some w =>
      let initialPosts := match s₁.lastInitialData with
        | some m => [(p, m)]
        | none => []
      (s₁, ⟨initialPosts ++
        [(p, if w.readyState = WebSocketOPEN then Msg.connected else Msg.disconnected)], [], 0⟩)

/-- One coalescing-window step: an upstream `update` message (the `forEach`
over `message.data` followed by `scheduleBatch`). -/
def updateStep (s : State) (rows : List Row) : State × Nat :=
  scheduleBatch { s with pendingUpdates := offerRows rows s.pendingUpdates }

/-- A whole coalescing window: the upstream `update` messages that arrive
while the (at most one) batch timer is open, with the count of flush timers
created. -/
def runWindow : List (List Row) → State → State × Nat
  | [], s => (s, 0)
  | rows :: rest, s =>
      let r := updateStep s rows
      let r' := runWindow rest r.1
      (r'.1, r.2 + r'.2)

/-- The last value offered for a symbol within a window's offer sequence. -/
def lastOffer (rows : List Row) (sym : String) : Option Row :=
  (rows.filter (fun r => r.symbol = sym)).getLast?

/-- A run of consecutive `onconnect` events with no intervening detaches,
counting `new WebSocket(...)` constructions. -/
def attachAll (now : Nat) : List Port → State → State × Nat
  | [], s => (s, 0)
  | p :: rest, s =>
      let r := onconnect now p s
      let r' := attachAll now rest r.1
      (r'.1, r.2.connects + r'.2)

/-- Concrete coalescing window used as a witness: three offers for AAPL
(prices 101, 102, 103) split over two upstream delta messages. -/
def sampleWindow : List (List Row) :=
  [[⟨"AAPL", 101⟩, ⟨"AAPL", 102⟩], [⟨"AAPL", 103⟩]]

/-- Concrete state with one registered port, an open socket, an undelivered
pending update and a scheduled flush timer. -/
def oneSubscriberState : State :=
  { ws := some ⟨WebSocketOPEN⟩, ports := [(1, ⟨1, 0⟩)], reconnectTimeout := none,
    lastInitialData := none, nextPortId := 2, heartbeatInterval := true,
    pendingUpdates := [("AAPL", ⟨"AAPL", 101⟩)], batchTimer := true }

/-- Concrete state with two registered ports and an open socket. -/
def twoSubscriberState : State :=
  { ws := some ⟨WebSocketOPEN⟩, ports := [(1, ⟨1, 0⟩), (2, ⟨2, 0⟩)], reconnectTimeout := none,
    lastInitialData := none, nextPortId := 3, heartbeatInterval := true,
    pendingUpdates := [], batchTimer := false }

/-- Concrete state of a running worker with an open socket and a cached
snapshot, as seen by a late-joining subscriber. -/
def lateJoinState : State :=
  { ws := some ⟨WebSocketOPEN⟩, ports := [(1, ⟨1, 0⟩)], reconnectTimeout := none,
    lastInitialData := some (Msg.initial [⟨"AAPL", 100⟩]), nextPortId := 2,
    heartbeatInterval := true, pendingUpdates := [], batchTimer := false }

end MW

namespace P0

open MW

/-- State of the older worker variant kept in the repository
(unnamed/part_000 lines 107-277), restricted to the fields its `broadcast`,
`removePort` and `checkCleanup` touch: there `ports` maps a port to its
last heartbeat timestamp. -/
structure State where
  ports : List (Port × Nat)
  reconnectTimeout : Option Nat
  heartbeatInterval : Bool
  ws : Option WS
deriving DecidableEq

/-- part_000's `checkCleanup` (lines 207-224). -/
def checkCleanup (s : State) : State :=
  if s.ports = [] then
    { s with reconnectTimeout := none, heartbeatInterval := false, ws := none }
  else s

/-- part_000's `removePort` (lines 199-205). -/
def removePort (p : Port) (s : State) : State :=
  if (jsMapGet s.ports p).isSome then
    checkCleanup { s with ports := jsMapDelete s.ports p }
  else s

/-- part_000's `broadcast` (lines 186-197): iterate a snapshot of the port
keys; a throwing `postMessage` is caught and the failed port removed, and
delivery to the remaining ports continues. -/
def broadcast (fails : Port → Bool) (m : Msg) (s : State) : State × List (Port × Msg) :=
  (s.ports.map Prod.fst).foldl
    (fun acc p => if fails p then (removePort p acc.1, acc.2) else (acc.1, acc.2 ++ [(p, m)]))
    (s, [])

end P0

namespace MW

/-! ### Association-list (JS Map) lemmas -/

theorem jsMapGet_jsMapSet {K A : Type} [DecidableEq K] (m : List (K × A)) (k k' : K) (v : A) :
    jsMapGet (jsMapSet m k v) k' = if k' = k then some v else jsMapGet m k' := by
  induction m with
  | nil =>
      simp only [jsMapSet, jsMapGet]
      by_cases h : k' = k
      · subst h; simp
      · simp [h, Ne.symm h]
  | cons e rest ih =>
      simp only [jsMapSet]
      by_cases h : e.1 = k
      · simp only [h, if_pos rfl, jsMapGet]
        by_cases h' : k' = k
        · subst h'; simp
        · simp [h', Ne.symm h', h, jsMapGet]
      · simp only [if_neg h, jsMapGet, ih]
        by_cases h' : e.1 = k'
        · have : ¬ k' = k := fun hh => h (h'.trans hh)
          simp [h', this]
        · simp [h']

theorem jsMapSet_ne_nil {K A : Type} [DecidableEq K] (m : List (K × A)) (k : K) (v : A) :
    jsMapSet m k v ≠ [] := by
  cases m with
  | nil => simp [jsMapSet]
  | cons e rest =>
      simp only [jsMapSet]
      split <;> simp

theorem jsMapGet_eq_none_iff {K A : Type} [DecidableEq K] (m : List (K × A)) (k : K) :
    jsMapGet m k = none ↔ ∀ e ∈ m, e.1 ≠ k := by
  induction m with
  | nil => simp [jsMapGet]
  | cons e rest ih =>
      simp only [jsMapGet]
      by_cases h : e.1 = k
      · simp [h]
      · simp [h, ih]

/-! ### Coalescer lemmas (flushBatch / scheduleBatch / runWindow) -/

theorem offerRows_cons (r : Row) (rows : List Row) (m : List (String × Row)) :
    offerRows (r :: rows) m = offerRows rows (jsMapSet m r.symbol r) := rfl

theorem offerRows_append (a b : List Row) (m : List (String × Row)) :
    offerRows (a ++ b) m = offerRows b (offerRows a m) :=
  List.foldl_append _ _ _ _

theorem offerRows_ne_nil_of_ne {rows : List Row} {m : List (String × Row)} (h : m ≠ []) :
    offerRows rows m ≠ [] := by
  induction rows generalizing m with
  | nil => exact h
  | cons r rows ih => exact ih (jsMapSet_ne_nil _ _ _)

theorem offerRows_ne_nil {rows : List Row} (h : rows ≠ []) (m : List (String × Row)) :
    offerRows rows m ≠ [] := by
  cases rows with
  | nil => exact absurd rfl h
  | cons r rows =>
      rw [offerRows_cons]
      exact offerRows_ne_nil_of_ne (jsMapSet_ne_nil _ _ _)

theorem getLast?_cons_of_ne_nil {A : Type} (a : A) {l : List A} (h : l ≠ []) :
    (a :: l).getLast? = l.getLast? := by
  cases l with
  | nil => exact absurd rfl h
  | cons b t => simp [List.getLast?_cons_cons]

/-- The pending map after a sequence of offers resolves each symbol to the
last row offered for it, falling back to the prior pending entry. -/
theorem jsMapGet_offerRows (rows : List Row) (m : List (String × Row)) (sym : String) :
    jsMapGet (offerRows rows m) sym =
      match lastOffer rows sym with
      | some r => some r
      | none => jsMapGet m sym := by
  induction rows generalizing m with
  | nil => simp [offerRows, lastOffer]
  | cons r rows ih =>
      rw [offerRows_cons, ih]
      have hfc : (r :: rows).filter (fun r => r.symbol = sym) =
          if r.symbol = sym then r :: rows.filter (fun r => r.symbol = sym)
          else rows.filter (fun r => r.symbol = sym) := by
        by_cases h : r.symbol = sym <;> simp [List.filter_cons, h]
      rcases hl : (rows.filter (fun r => r.symbol = sym)).getLast? with _ | x
      · have hnil : rows.filter (fun r => r.symbol = sym) = [] := by
          cases hf : rows.filter (fun r => r.symbol = sym) with
          | nil => rfl
          | cons y t => rw [hf] at hl; simp at hl
        by_cases h : r.symbol = sym
        · simp [lastOffer, hfc, h, hnil, jsMapGet_jsMapSet, hl]
        · simp [lastOffer, hfc, h, hnil, jsMapGet_jsMapSet, hl, Ne.symm h]
      · have hne : rows.filter (fun r => r.symbol = sym) ≠ [] := by
          intro hf; rw [hf] at hl; simp at hl
        by_cases h : r.symbol = sym
        · simp [lastOffer, hfc, h, getLast?_cons_of_ne_nil _ hne, hl]
        · simp [lastOffer, hfc, h, hl]

theorem scheduleBatch_pendingUpdates (s : State) :
    (scheduleBatch s).1.pendingUpdates = s.pendingUpdates := by
  cases hb : s.batchTimer <;> simp [scheduleBatch, hb]

theorem scheduleBatch_ports (s : State) : (scheduleBatch s).1.ports = s.ports := by
  cases hb : s.batchTimer <;> simp [scheduleBatch, hb]

theorem scheduleBatch_batchTimer (s : State) : (scheduleBatch s).1.batchTimer = true := by
  cases hb : s.batchTimer <;> simp [scheduleBatch, hb]

theorem scheduleBatch_count (s : State) :
    (scheduleBatch s).2 = if s.batchTimer then 0 else 1 := by
  cases hb : s.batchTimer <;> simp [scheduleBatch, hb]

theorem updateStep_pendingUpdates (s : State) (rows : List Row) :
    (updateStep s rows).1.pendingUpdates = offerRows rows s.pendingUpdates := by
  simp [updateStep, scheduleBatch_pendingUpdates]

theorem updateStep_ports (s : State) (rows : List Row) :
    (updateStep s rows).1.ports = s.ports := by
  simp [updateStep, scheduleBatch_ports]

theorem updateStep_batchTimer (s : State) (rows : List Row) :
    (updateStep s rows).1.batchTimer = true := by
  simp [updateStep, scheduleBatch_batchTimer]

theorem updateStep_count (s : State) (rows : List Row) :
    (updateStep s rows).2 = if s.batchTimer then 0 else 1 := by
  simp [updateStep, scheduleBatch_count]

theorem runWindow_pendingUpdates (msgs : List (List Row)) (s : State) :
    (runWindow msgs s).1.pendingUpdates = offerRows msgs.flatten s.pendingUpdates := by
  induction msgs generalizing s with
  | nil => simp [runWindow, offerRows]
  | cons rows rest ih =>
      simp [runWindow, ih, offerRows_append, updateStep_pendingUpdates]

theorem runWindow_ports (msgs : List (List Row)) (s : State) :
    (runWindow msgs s).1.ports = s.ports := by
  induction msgs generalizing s with
  | nil => simp [runWindow]
  | cons rows rest ih => simp [runWindow, ih, updateStep_ports]

theorem runWindow_batchTimer_of_ne {msgs : List (List Row)} (h : msgs ≠ []) (s : State) :
    (runWindow msgs s).1.batchTimer = true := by
  induction msgs generalizing s with
  | nil => exact absurd rfl h
  | cons rows rest ih =>
      by_cases hrest : rest = []
      · subst hrest; simp [runWindow, updateStep_batchTimer]
      · simp only [runWindow]
        exact ih hrest _

theorem runWindow_count_of_timer {msgs : List (List Row)} {s : State}
    (h : s.batchTimer = true) : (runWindow msgs s).2 = 0 := by
  induction msgs generalizing s with
  | nil => simp [runWindow]
  | cons rows rest ih =>
      simp [runWindow, updateStep_count, h, ih (updateStep_batchTimer s rows)]

theorem runWindow_count {msgs : List (List Row)} (h : msgs ≠ []) {s : State}
    (hs : s.batchTimer = false) : (runWindow msgs s).2 = 1 := by
  cases msgs with
  | nil => exact absurd rfl h
  | cons rows rest =>
      simp [runWindow, updateStep_count, hs,
        runWindow_count_of_timer (updateStep_batchTimer s rows)]

end MW

namespace MW

/-! ### Claim theorems -/

/-- Claim C1: within one open coalescing window (nothing pending and no
flush timer at the start), any nonempty sequence of offers fed through the
update branch of `ws.onmessage` creates exactly one flush timer; the flush
broadcasts exactly one batched `update` message whose per-symbol content is
exactly the last value offered for that symbol in the window
(last-write-wins, whatever the offer order); and a flush that finds nothing
pending is a no-op that emits nothing. -/
theorem coalescer_window_flush (s₀ : State) (msgs : List (List Row)) (now : Nat)
    (hpend : s₀.pendingUpdates = []) (htimer : s₀.batchTimer = false)
    (hne : msgs.flatten ≠ []) :
    (runWindow msgs s₀).2 = 1 ∧
    (∀ sym, jsMapGet (runWindow msgs s₀).1.pendingUpdates sym = lastOffer msgs.flatten sym) ∧
    (flushBatch now (runWindow msgs s₀).1).2 =
      s₀.ports.map (fun e =>
        (e.1, Msg.update ((runWindow msgs s₀).1.pendingUpdates.map Prod.snd) now)) ∧
    ∀ s : State, s.pendingUpdates = [] → flushBatch now s = (s, []) := by
  have hmsgs : msgs ≠ [] := by
    intro h; rw [h] at hne; exact hne rfl
  refine ⟨runWindow_count hmsgs htimer, ?_, ?_, ?_⟩
  · intro sym
    rw [runWindow_pendingUpdates, jsMapGet_offerRows, hpend]
    cases lastOffer msgs.flatten sym <;> simp [jsMapGet]
  · have hnp : (runWindow msgs s₀).1.pendingUpdates ≠ [] := by
      rw [runWindow_pendingUpdates, hpend]
      exact offerRows_ne_nil hne []
    simp only [flushBatch, if_neg hnp, runWindow_ports]
  · intro s hs
    simp [flushBatch, hs]

/-- Witness for C1 at the concrete window `sampleWindow`. -/
theorem coalescer_window_flush_witness :
    (runWindow sampleWindow initState).2 = 1 ∧
    (∀ sym, jsMapGet (runWindow sampleWindow initState).1.pendingUpdates sym =
      lastOffer sampleWindow.flatten sym) ∧
    (flushBatch 7 (runWindow sampleWindow initState).1).2 =
      initState.ports.map (fun e =>
        (e.1, Msg.update ((runWindow sampleWindow initState).1.pendingUpdates.map Prod.snd) 7)) ∧
    ∀ s : State, s.pendingUpdates = [] → flushBatch 7 s = (s, []) :=
  coalescer_window_flush initState sampleWindow 7 rfl rfl (by decide)

theorem onconnect_connects_of_ws (now : Nat) (p : Port) {s : State} {w : WS}
    (h : s.ws = some w) :
    (onconnect now p s).1.ws = some w ∧ (onconnect now p s).2.connects = 0 := by
  simp [onconnect, h]

theorem onconnect_connects_of_no_ws (now : Nat) (p : Port) {s : State}
    (h : s.ws = none) :
    (onconnect now p s).1.ws = some ⟨WebSocketCONNECTING⟩ ∧
    (onconnect now p s).2.connects = 1 := by
  simp only [onconnect, h, connect, startHeartbeatMonitoring]
  split <;> simp

theorem attachAll_count_of_ws (now : Nat) (ps : List Port) {s : State} {w : WS}
    (h : s.ws = some w) :
    (attachAll now ps s).2 = 0 ∧ (attachAll now ps s).1.ws = some w := by
  induction ps generalizing s with
  | nil => simpa [attachAll] using h
  | cons p rest ih =>
      obtain ⟨hws, hc⟩ := onconnect_connects_of_ws now p h
      obtain ⟨h0, hws'⟩ := ih hws
      simp [attachAll, hc, h0, hws']

/-- Claim C2: starting from the worker's initial state, any nonempty run of
consecutive attaches with no intervening detaches constructs exactly one
upstream WebSocket; moreover any attach that happens while a socket object
already exists performs no connect call at all. -/
theorem attach_single_connect (now : Nat) (ps : List Port) (hne : ps ≠ []) :
    (attachAll now ps initState).2 = 1 ∧
    ∀ (s : State) (p : Port) (w : WS), s.ws = some w → (onconnect now p s).2.connects = 0 := by
  constructor
  · cases ps with
    | nil => exact absurd rfl hne
    | cons p rest =>
        obtain ⟨hws, hc⟩ := onconnect_connects_of_no_ws now p (rfl : initState.ws = none)
        obtain ⟨hrest, _⟩ := attachAll_count_of_ws now rest hws
        simp [attachAll, hc, hrest]
  · intro s p w h
    exact (onconnect_connects_of_ws now p h).2

/-- Witness for C2: three consecutive attaches open exactly one connection. -/
theorem attach_single_connect_witness :
    (attachAll 0 [7, 8, 9] initState).2 = 1 ∧
    ∀ (s : State) (p : Port) (w : WS), s.ws = some w → (onconnect 0 p s).2.connects = 0 :=
  attach_single_connect 0 [7, 8, 9] (by decide)

/-- Claim C3 (the code contradicts it): in market-worker.js, `broadcast`
has no try/catch, so with the registry holding port 1 (whose `postMessage`
throws) and then port 2 (healthy), the broadcast delivers to nobody — the
exception escapes before port 2 is reached — and, `broadcast` never touching
the registry, port 1 is not detached. The older worker variant kept in the
repository (unnamed/part_000) implements exactly the claimed isolation:
there the same broadcast delivers to port 2 and removes port 1 only. -/
theorem broadcast_aborts_on_failure :
    broadcast (fun p => p == 1) [(1, ⟨1, 0⟩), (2, ⟨2, 0⟩)] Msg.connected = ([], true) ∧
    P0.broadcast (fun p => p == 1) Msg.connected
        ⟨[(1, 0), (2, 0)], none, true, some ⟨WebSocketOPEN⟩⟩ =
      (⟨[(2, 0)], none, true, some ⟨WebSocketOPEN⟩⟩, [(2, Msg.connected)]) := by
  constructor <;> rfl

end MW

namespace MW

/-- Claim C4 counterexample: in a state with one subscriber, a running
heartbeat interval, an open socket and a scheduled coalescing flush timer,
the subscriber's explicit disconnect empties the registry and `checkCleanup`
clears the reconnect slot, the heartbeat interval and the socket — but the
coalescing flush timer is still scheduled (and its pending data still
queued), contradicting the claim that every pending timer is cancelled. -/
theorem last_detach_keeps_flush_timer :
    (portOnMessage 5 1 PortEvent.disconnect oneSubscriberState).1.ports = [] ∧
    (portOnMessage 5 1 PortEvent.disconnect oneSubscriberState).1.reconnectTimeout = none ∧
    (portOnMessage 5 1 PortEvent.disconnect oneSubscriberState).1.heartbeatInterval = false ∧
    (portOnMessage 5 1 PortEvent.disconnect oneSubscriberState).1.ws = none ∧
    (portOnMessage 5 1 PortEvent.disconnect oneSubscriberState).1.batchTimer = true ∧
    (portOnMessage 5 1 PortEvent.disconnect oneSubscriberState).1.pendingUpdates ≠ [] := by
  decide

/-- Claim C4 as amended: when the last subscriber detaches, the reconnect
timer and the heartbeat interval are cancelled and the upstream socket is
closed and released; the coalescing flush timer, however, is left exactly as
it was (as is its pending data). -/
theorem last_detach_cleanup (now : Nat) (p : Port) (s : State)
    (hmem : (jsMapGet s.ports p).isSome = true)
    (hall : ∀ e ∈ s.ports, e.1 = p) :
    (portOnMessage now p PortEvent.disconnect s).1.ports = [] ∧
    (portOnMessage now p PortEvent.disconnect s).1.reconnectTimeout = none ∧
    (portOnMessage now p PortEvent.disconnect s).1.heartbeatInterval = false ∧
    (portOnMessage now p PortEvent.disconnect s).1.ws = none ∧
    (portOnMessage now p PortEvent.disconnect s).1.batchTimer = s.batchTimer ∧
    (portOnMessage now p PortEvent.disconnect s).1.pendingUpdates = s.pendingUpdates := by
  obtain ⟨info, hinfo⟩ := Option.isSome_iff_exists.mp hmem
  have hdel : jsMapDelete s.ports p = [] := by
    simp only [jsMapDelete]
    rw [List.filter_eq_nil_iff]
    intro e he
    simp [hall e he]
  simp [portOnMessage, hinfo, removePort, hdel, checkCleanup]

/-- Witness for the amended C4 at the concrete one-subscriber state. -/
theorem last_detach_cleanup_witness :
    (jsMapGet oneSubscriberState.ports 1).isSome = true ∧
    (∀ e ∈ oneSubscriberState.ports, e.1 = 1) ∧
    ((portOnMessage 5 1 PortEvent.disconnect oneSubscriberState).1.ports = [] ∧
     (portOnMessage 5 1 PortEvent.disconnect oneSubscriberState).1.reconnectTimeout = none ∧
     (portOnMessage 5 1 PortEvent.disconnect oneSubscriberState).1.heartbeatInterval = false ∧
     (portOnMessage 5 1 PortEvent.disconnect oneSubscriberState).1.ws = none ∧
     (portOnMessage 5 1 PortEvent.disconnect oneSubscriberState).1.batchTimer =
       oneSubscriberState.batchTimer ∧
     (portOnMessage 5 1 PortEvent.disconnect oneSubscriberState).1.pendingUpdates =
       oneSubscriberState.pendingUpdates) :=
  ⟨by decide, by decide, last_detach_cleanup 5 1 oneSubscriberState (by decide) (by decide)⟩

/-- Claim C5: a subscriber attaching while a socket object exists and a
snapshot is cached receives, synchronously during the attach, the cached
snapshot followed by a synthetic status message reflecting the socket's
current readyState — and the attach performs no connect call and no
upstream send. -/
theorem late_attach_snapshot (now : Nat) (p : Port) (s : State) (w : WS) (m : Msg)
    (hws : s.ws = some w) (hinit : s.lastInitialData = some m) :
    (onconnect now p s).2.posts =
      [(p, m), (p, if w.readyState = WebSocketOPEN then Msg.connected else Msg.disconnected)] ∧
    (onconnect now p s).2.connects = 0 ∧
    (onconnect now p s).2.sends = [] := by
  simp [onconnect, hws, hinit]

/-- Witness for C5: port 2 joins `lateJoinState` and receives the cached
snapshot then `connected`, with no connect call. -/
theorem late_attach_snapshot_witness :
    (onconnect 9 2 lateJoinState).2.posts =
      [(2, Msg.initial [⟨"AAPL", 100⟩]), (2, Msg.connected)] ∧
    (onconnect 9 2 lateJoinState).2.connects = 0 ∧
    (onconnect 9 2 lateJoinState).2.sends = [] := by
  simpa using
    late_attach_snapshot 9 2 lateJoinState ⟨WebSocketOPEN⟩ (Msg.initial [⟨"AAPL", 100⟩]) rfl rfl

theorem flushBatch_ports (now : Nat) (s : State) : (flushBatch now s).1.ports = s.ports := by
  simp only [flushBatch]
  split <;> rfl

theorem flushBatch_reconnectTimeout (now : Nat) (s : State) :
    (flushBatch now s).1.reconnectTimeout = s.reconnectTimeout := by
  simp only [flushBatch]
  split <;> rfl

/-- Claim C6: on an upstream close, the worker first broadcasts
`disconnected` to every registered port; it leaves a reconnect scheduled
due exactly `RECONNECT_DELAY` (2000) ms later precisely when at least one
subscriber remains; and with no subscribers it schedules nothing and drops
the socket reference. -/
theorem close_reconnect_policy (now : Nat) (s : State)
    (hrt : s.reconnectTimeout = none) :
    (∃ tail, (wsOnClose now s).2 = s.ports.map (fun e => (e.1, Msg.disconnected)) ++ tail) ∧
    (wsOnClose now s).1.reconnectTimeout =
      (if s.ports = [] then none else some (now + RECONNECT_DELAY)) ∧
    (s.ports = [] → (wsOnClose now s).1.ws = none) := by
  have hports : (if s.batchTimer then flushBatch now s else (s, [])).1.ports = s.ports := by
    split
    · exact flushBatch_ports now s
    · rfl
  have hrt2 : (if s.batchTimer then flushBatch now s else (s, [])).1.reconnectTimeout = none := by
    split
    · rw [flushBatch_reconnectTimeout]; exact hrt
    · exact hrt
  refine ⟨⟨(if s.batchTimer then flushBatch now s else (s, [])).2, ?_⟩, ?_, ?_⟩
  · simp only [wsOnClose]
    split <;> split <;> rfl
  · simp only [wsOnClose]
    by_cases hempty : s.ports = []
    · rw [if_pos (by rw [hports]; exact hempty), if_pos hempty]
      simpa using hrt2
    · rw [if_neg (by rw [hports]; exact hempty), if_neg hempty]
  · intro hempty
    simp only [wsOnClose]
    rw [if_pos (by rw [hports]; exact hempty)]

/-- Witness for C6 at the concrete one-subscriber state: the close
broadcasts `disconnected` first and leaves a reconnect due at 11 + 2000. -/
theorem close_reconnect_policy_witness :
    (∃ tail, (wsOnClose 11 oneSubscriberState).2 =
      oneSubscriberState.ports.map (fun e => (e.1, Msg.disconnected)) ++ tail) ∧
    (wsOnClose 11 oneSubscriberState).1.reconnectTimeout =
      (if oneSubscriberState.ports = [] then none else some (11 + RECONNECT_DELAY)) ∧
    (oneSubscriberState.ports = [] → (wsOnClose 11 oneSubscriberState).1.ws = none) :=
  close_reconnect_policy 11 oneSubscriberState rfl

end MW

namespace MW

theorem checkCleanup_ports (s : State) : (checkCleanup s).ports = s.ports := by
  simp only [checkCleanup]
  split <;> rfl

theorem removePort_ports (p : Port) (s : State) :
    (removePort p s).ports = s.ports.filter (fun e => e.1 ≠ p) := by
  simp only [removePort]
  split
  · rw [checkCleanup_ports]
    rfl
  · rename_i h
    have h0 : jsMapGet s.ports p = none := by
      cases hg : jsMapGet s.ports p with
      | none => rfl
      | some info => rw [hg] at h; simp at h
    have hall := (jsMapGet_eq_none_iff s.ports p).mp h0
    rw [List.filter_eq_self.mpr]
    intro e he
    simpa using hall e he

theorem mem_checkHeartbeats_fold (now : Nat) (l : List (Port × PortInfo)) (s : State)
    (e : Port × PortInfo) :
    e ∈ (l.foldl (fun st q =>
        if now - q.2.lastPong > HEARTBEAT_TIMEOUT then removePort q.1 st else st) s).ports ↔
      e ∈ s.ports ∧ ∀ q ∈ l, now - q.2.lastPong > HEARTBEAT_TIMEOUT → e.1 ≠ q.1 := by
  induction l generalizing s with
  | nil => simp
  | cons q l ih =>
      by_cases hq : now - q.2.lastPong > HEARTBEAT_TIMEOUT
      · rw [List.foldl_cons, if_pos hq, ih]
        have hmem : e ∈ (removePort q.1 s).ports ↔ e ∈ s.ports ∧ e.1 ≠ q.1 := by
          rw [removePort_ports]
          simp [List.mem_filter]
        rw [hmem]
        simp [List.forall_mem_cons, hq, and_assoc]
      · rw [List.foldl_cons, if_neg hq, ih]
        simp [List.forall_mem_cons, hq]

/-- The registry after one `checkHeartbeats` pass: an entry survives exactly
when no timed-out entry carries its key. -/
theorem mem_checkHeartbeats (now : Nat) (s : State) (e : Port × PortInfo) :
    e ∈ (checkHeartbeats now s).ports ↔
      e ∈ s.ports ∧ ∀ q ∈ s.ports, now - q.2.lastPong > HEARTBEAT_TIMEOUT → e.1 ≠ q.1 :=
  mem_checkHeartbeats_fold now s.ports s e

/-- In a registry with `Nodup` keys (a JS `Map` invariant), a key determines
its entry. -/
theorem nodup_keys_eq {l : List (Port × PortInfo)} (h : (l.map Prod.fst).Nodup)
    {p : Port} {a b : PortInfo} (ha : (p, a) ∈ l) (hb : (p, b) ∈ l) : a = b := by
  induction l with
  | nil => cases ha
  | cons e l ih =>
      rw [List.map_cons, List.nodup_cons] at h
      rcases List.mem_cons.mp ha with ha' | ha' <;> rcases List.mem_cons.mp hb with hb' | hb'
      · simpa using congrArg Prod.snd (ha'.trans hb'.symm)
      · refine absurd ?_ h.1
        rw [show e.1 = p from (congrArg Prod.fst ha').symm]
        exact List.mem_map.mpr ⟨(p, b), hb', rfl⟩
      · refine absurd ?_ h.1
        rw [show e.1 = p from (congrArg Prod.fst hb').symm]
        exact List.mem_map.mpr ⟨(p, a), ha', rfl⟩
      · exact ih h.2 ha' hb'

/-- Claim C7: a subscriber that never sends a liveness acknowledgment after
its last recorded timestamp survives every monitor check at or before
`lastPong + HEARTBEAT_TIMEOUT` (never evicted early), and is evicted at the
first 10-second monitor tick strictly past that threshold — a tick that
falls no later than threshold + one monitor interval, the monitor having
been started (by `startHeartbeatMonitoring`) at `t0 ≤ lastPong`. -/
theorem liveness_eviction (t0 : Nat) (s : State) (p : Port) (info : PortInfo)
    (hstart : t0 ≤ info.lastPong) (hmem : (p, info) ∈ s.ports)
    (hnd : (s.ports.map Prod.fst).Nodup) :
    (∀ now ≤ info.lastPong + HEARTBEAT_TIMEOUT, (p, info) ∈ (checkHeartbeats now s).ports) ∧
    ∃ k : Nat,
      (∀ j < k, t0 + j * HEARTBEAT_INTERVAL ≤ info.lastPong + HEARTBEAT_TIMEOUT) ∧
      p ∉ ((checkHeartbeats (t0 + k * HEARTBEAT_INTERVAL) s).ports.map Prod.fst) ∧
      info.lastPong + HEARTBEAT_TIMEOUT < t0 + k * HEARTBEAT_INTERVAL ∧
      t0 + k * HEARTBEAT_INTERVAL ≤ info.lastPong + HEARTBEAT_TIMEOUT + HEARTBEAT_INTERVAL := by
  constructor
  · intro now hnow
    rw [mem_checkHeartbeats]
    refine ⟨hmem, ?_⟩
    rintro ⟨q1, q2⟩ hq ht heq
    have heq' : p = q1 := heq
    subst heq'
    have hinfo : q2 = info := nodup_keys_eq hnd hq hmem
    subst hinfo
    simp only [HEARTBEAT_TIMEOUT] at ht hnow
    omega
  · refine ⟨(info.lastPong + HEARTBEAT_TIMEOUT - t0) / HEARTBEAT_INTERVAL + 1, ?_, ?_, ?_, ?_⟩
    · intro j hj
      simp only [HEARTBEAT_TIMEOUT, HEARTBEAT_INTERVAL] at hj ⊢
      omega
    · intro hp
      obtain ⟨e, he, hfst⟩ := List.mem_map.mp hp
      rw [mem_checkHeartbeats] at he
      refine he.2 (p, info) hmem ?_ hfst
      simp only [HEARTBEAT_TIMEOUT, HEARTBEAT_INTERVAL]
      omega
    · simp only [HEARTBEAT_TIMEOUT, HEARTBEAT_INTERVAL]
      omega
    · simp only [HEARTBEAT_TIMEOUT, HEARTBEAT_INTERVAL]
      omega

/-- Witness for C7: the one registered subscriber, never acknowledging,
survives until 30000 and is evicted at the tick at 40000. -/
theorem liveness_eviction_witness :
    (∀ now ≤ 0 + HEARTBEAT_TIMEOUT,
      ((1 : Port), (⟨1, 0⟩ : PortInfo)) ∈ (checkHeartbeats now oneSubscriberState).ports) ∧
    ∃ k : Nat,
      (∀ j < k, 0 + j * HEARTBEAT_INTERVAL ≤ 0 + HEARTBEAT_TIMEOUT) ∧
      (1 : Port) ∉
        ((checkHeartbeats (0 + k * HEARTBEAT_INTERVAL) oneSubscriberState).ports.map Prod.fst) ∧
      0 + HEARTBEAT_TIMEOUT < 0 + k * HEARTBEAT_INTERVAL ∧
      0 + k * HEARTBEAT_INTERVAL ≤ 0 + HEARTBEAT_TIMEOUT + HEARTBEAT_INTERVAL :=
  liveness_eviction 0 oneSubscriberState 1 ⟨1, 0⟩ (Nat.zero_le _) (by decide) (by decide)

/-- Claim C8: a subscriber's `setFrequency` / `setBatchSize` command is
relayed upstream exactly when the socket's readyState is OPEN, and is
silently dropped otherwise — nothing is queued (the state is unchanged in
both cases) and no error is raised (the handler is total). -/
theorem forward_command_policy (now : Nat) (p : Port) (f mn mx : Int) (s : State)
    (info : PortInfo) (h : jsMapGet s.ports p = some info) :
    ((portOnMessage now p (PortEvent.setFrequency f) s).2.sends =
      if wsIsOpen s then [Cmd.setFrequency f] else []) ∧
    (portOnMessage now p (PortEvent.setFrequency f) s).1 = s ∧
    ((portOnMessage now p (PortEvent.setBatchSize mn mx) s).2.sends =
      if wsIsOpen s then [Cmd.setBatchSize mn mx] else []) ∧
    (portOnMessage now p (PortEvent.setBatchSize mn mx) s).1 = s := by
  simp [portOnMessage, h]

/-- Witness for C8 at a concrete open-socket state. -/
theorem forward_command_policy_witness :
    ((portOnMessage 3 1 (PortEvent.setFrequency 50) lateJoinState).2.sends =
      if wsIsOpen lateJoinState then [Cmd.setFrequency 50] else []) ∧
    (portOnMessage 3 1 (PortEvent.setFrequency 50) lateJoinState).1 = lateJoinState ∧
    ((portOnMessage 3 1 (PortEvent.setBatchSize 10 30) lateJoinState).2.sends =
      if wsIsOpen lateJoinState then [Cmd.setBatchSize 10 30] else []) ∧
    (portOnMessage 3 1 (PortEvent.setBatchSize 10 30) lateJoinState).1 = lateJoinState :=
  forward_command_policy 3 1 50 10 30 lateJoinState ⟨1, 0⟩ rfl

/-- Claim C9: a `setFrequency` / `setBatchSize` command from a registered
subscriber is fanned out as `frequencyChanged` / `batchSizeChanged` to
exactly the other registered ports — never to the originator — and the
fan-out expression does not consult the connection state (the equation holds
for every state, whatever `ws` is). -/
theorem command_fanout (now : Nat) (p : Port) (f mn mx : Int) (s : State)
    (info : PortInfo) (h : jsMapGet s.ports p = some info) :
    ((portOnMessage now p (PortEvent.setFrequency f) s).2.posts =
      (s.ports.filter (fun e => e.1 ≠ p)).map (fun e => (e.1, Msg.frequencyChanged f))) ∧
    (∀ m, (p, m) ∉ (portOnMessage now p (PortEvent.setFrequency f) s).2.posts) ∧
    ((portOnMessage now p (PortEvent.setBatchSize mn mx) s).2.posts =
      (s.ports.filter (fun e => e.1 ≠ p)).map (fun e => (e.1, Msg.batchSizeChanged mn mx))) ∧
    (∀ m, (p, m) ∉ (portOnMessage now p (PortEvent.setBatchSize mn mx) s).2.posts) := by
  have h1 : (portOnMessage now p (PortEvent.setFrequency f) s).2.posts =
      (s.ports.filter (fun e => e.1 ≠ p)).map (fun e => (e.1, Msg.frequencyChanged f)) := by
    simp [portOnMessage, h]
  have h2 : (portOnMessage now p (PortEvent.setBatchSize mn mx) s).2.posts =
      (s.ports.filter (fun e => e.1 ≠ p)).map (fun e => (e.1, Msg.batchSizeChanged mn mx)) := by
    simp [portOnMessage, h]
  refine ⟨h1, ?_, h2, ?_⟩
  · intro m hm
    rw [h1] at hm
    obtain ⟨e, he, heq⟩ := List.mem_map.mp hm
    obtain ⟨hein, hne⟩ := List.mem_filter.mp he
    have hp : e.1 = p := congrArg Prod.fst heq
    simp at hne
    exact hne hp
  · intro m hm
    rw [h2] at hm
    obtain ⟨e, he, heq⟩ := List.mem_map.mp hm
    obtain ⟨hein, hne⟩ := List.mem_filter.mp he
    have hp : e.1 = p := congrArg Prod.fst heq
    simp at hne
    exact hne hp

/-- Witness for C9: with ports 1 and 2 registered, port 1's commands are
fanned out to port 2 only. -/
theorem command_fanout_witness :
    ((portOnMessage 3 1 (PortEvent.setFrequency 50) twoSubscriberState).2.posts =
      (twoSubscriberState.ports.filter (fun e => e.1 ≠ 1)).map
        (fun e => (e.1, Msg.frequencyChanged 50))) ∧
    (∀ m, ((1 : Port), m) ∉ (portOnMessage 3 1 (PortEvent.setFrequency 50) twoSubscriberState).2.posts) ∧
    ((portOnMessage 3 1 (PortEvent.setBatchSize 10 30) twoSubscriberState).2.posts =
      (twoSubscriberState.ports.filter (fun e => e.1 ≠ 1)).map
        (fun e => (e.1, Msg.batchSizeChanged 10 30))) ∧
    (∀ m, ((1 : Port), m) ∉ (portOnMessage 3 1 (PortEvent.setBatchSize 10 30) twoSubscriberState).2.posts) :=
  command_fanout 3 1 50 10 30 twoSubscriberState ⟨1, 0⟩ rfl

/-- Claim C10: a message of any kind (pong, disconnect, setFrequency,
setBatchSize) arriving on a port absent from the registry leaves the state
untouched and produces no post, no send and no connect: the handler returns
at the `if (!portInfo) return` guard. -/
theorem stale_port_noop (now : Nat) (p : Port) (ev : PortEvent) (s : State)
    (h : jsMapGet s.ports p = none) :
    portOnMessage now p ev s = (s, noOut) := by
  simp [portOnMessage, h]

/-- Witness for C10: port 99 was never registered; its pong is ignored. -/
theorem stale_port_noop_witness :
    jsMapGet initState.ports 99 = none ∧
    portOnMessage 0 99 PortEvent.pong initState = (initState, noOut) :=
  ⟨rfl, stale_port_noop 0 99 PortEvent.pong initState rfl⟩

end MW
